import Mathlib

/-!
Shallow embedding of `pkg/service/runtime_provider/config_flags.go` from the
runtime-provider-helm3 repository.

The file under verification builds a Kubernetes REST client configuration and
selects a Helm release-storage driver.  External vendored collaborators
(client-go `clientcmd`, Helm `storage`/`driver`, the kube clientset factory)
are modelled abstractly: functions whose behaviour the claims quantify over
(the loader's `Namespace()` call, `KubernetesClientSet()`) become oracle
parameters; constructors become Lean constructors recording their arguments.
Go byte slices are `List Nat`; Go `nil` pointers are `Option.none`; the
process environment (`HELM_DRIVER`, the home directory) is passed explicitly.
Process termination (`panic`, `log.Fatal`) is modelled as returning `none`.
-/

/-- Error values reported by external library calls (Go `error`). -/
abbrev Err := String

/-- Model of the vendored `clientcmd.ClientConfig` loader: the loader produced
by `clientcmd.NewClientConfigFromBytes` is determined by the kubeconfig bytes
it was built from. -/
structure ClientConfig where
  configBytes : List Nat
deriving DecidableEq, Repr

/-- Model of the vendored `clientcmd.NewClientConfigFromBytes`: wraps the given
bytes into a loader.  The only call site in the repository passes the empty
byte slice, which parses as an empty kubeconfig without error, so the error
component is `none`. -/
def NewClientConfigFromBytes (b : List Nat) : ClientConfig × Option Err :=
  (⟨b⟩, none)

/-- Embedding of the `ConfigFlags` struct (config_flags.go lines 72-100).
Go `nil` pointers become `none`; the defaults are the Go zero values, so a
record literal with no fields is the zero-valued struct. -/
structure ConfigFlags where
  CacheDir : Option String := none
  KubeConfig : Option String := none
  ClusterName : Option String := none
  AuthInfoName : Option String := none
  Context : Option String := none
  Namespace : Option String := none
  APIServer : Option String := none
  Insecure : Option Bool := none
  CertFile : Option String := none
  KeyFile : Option String := none
  CAFile : Option String := none
  BearerToken : Option String := none
  Impersonate : Option String := none
  ImpersonateGroup : Option (List String) := none
  Username : Option String := none
  Password : Option String := none
  Timeout : Option String := none
  clientConfig : Option ClientConfig := none
  usePersistentConfig : Bool := false
  CredentialContent : List Nat := []
deriving DecidableEq, Repr

/-- Embedding of `toRawKubeConfigLoader` (lines 120-133): the non-persistent
path builds a loader from the empty byte slice, discarding the error and every
field of the receiver. -/
def toRawKubeConfigLoader (_f : ConfigFlags) : ClientConfig :=
  (NewClientConfigFromBytes []).1

/-- Embedding of `toRawKubePersistentConfigLoader` (lines 137-146): caches the
loader in the receiver's `clientConfig` field.  Go mutates the receiver
through a pointer; the model returns the updated record alongside the
loader. -/
def toRawKubePersistentConfigLoader (f : ConfigFlags) : ClientConfig × ConfigFlags :=
  match f.clientConfig with
  | some cc => (cc, f)
  | none =>
      let cc := toRawKubeConfigLoader f
      (cc, { f with clientConfig := some cc })

/-- Embedding of `ToRawKubeConfigLoader` (lines 113-118). -/
def ToRawKubeConfigLoader (f : ConfigFlags) : ClientConfig × ConfigFlags :=
  if f.usePersistentConfig then toRawKubePersistentConfigLoader f
  else (toRawKubeConfigLoader f, f)

/-- Model of `filepath.Join` from the Go standard library, for the slash-joined
paths this repository builds: empty components are skipped and the remaining
components are joined with a single slash (path cleaning of exotic inputs is
not modelled; no call site produces one). -/
def filepath_Join : List String → String
  | [] => ""
  | p :: rest =>
      if p = "" then filepath_Join rest
      else
        let s := filepath_Join rest
        if s = "" then p else p ++ "/" ++ s

/-- Embedding of the package-level `defaultCacheDir` (line 61):
`filepath.Join(homedir.HomeDir(), ".kube", "http-cache")`.  The ambient home
directory returned by `homedir.HomeDir()` is an explicit parameter. -/
def defaultCacheDir (home : String) : String :=
  filepath_Join [home, ".kube", "http-cache"]

/-- Embedding of `stringptr` (lines 273-275). -/
def stringptr (val : String) : Option String :=
  some val

/-- Embedding of `NewConfigFlags` (lines 246-271).  Fields not mentioned in the
Go composite literal (`Username`, `Password`, `clientConfig`) keep their zero
value `nil`.  The `home` parameter models the ambient home directory that the
package-level `defaultCacheDir` reads. -/
def NewConfigFlags (usePersistentConfig : Bool) (credentialContent : List Nat)
    (home : String) : ConfigFlags :=
  let impersonateGroup : List String := []
  let insecure := false
  { Insecure := some insecure
    Timeout := stringptr "0"
    KubeConfig := stringptr ""
    CacheDir := stringptr (defaultCacheDir home)
    ClusterName := stringptr ""
    AuthInfoName := stringptr ""
    Context := stringptr ""
    Namespace := stringptr ""
    APIServer := stringptr ""
    CertFile := stringptr ""
    KeyFile := stringptr ""
    CAFile := stringptr ""
    BearerToken := stringptr ""
    Impersonate := stringptr ""
    ImpersonateGroup := some impersonateGroup
    usePersistentConfig := usePersistentConfig
    CredentialContent := credentialContent }

/-- The package-level mutable state (lines 62-66): the `config` global guarded
by `configOnce`.  `none` is the uninitialized state. -/
structure GlobalState where
  config : Option ConfigFlags
deriving DecidableEq, Repr

/-- Embedding of `kubeConfig` (lines 289-294): `configOnce.Do` runs the
initializer only when it has never run; afterwards every call returns the
stored value unchanged, whatever `credentialContent` is passed. -/
def kubeConfig (home : String) (credentialContent : List Nat)
    (st : GlobalState) : ConfigFlags × GlobalState :=
  match st.config with
  | some c => (c, st)
  | none =>
      let c := NewConfigFlags false credentialContent home
      (c, ⟨some c⟩)

/-- Embedding of `getNamespace` (lines 296-301).  The `Nsp` oracle models the
vendored loader's `Namespace()` method, returning the namespace, an
`overridden` flag and an optional error.  Go mutates the globally shared
`ConfigFlags` through its pointer when the persistent path caches a loader;
the model writes the possibly-updated record back into the global state. -/
def getNamespace (Nsp : ClientConfig → String × Bool × Option Err)
    (home : String) (credentialContent : List Nat)
    (st : GlobalState) : String × GlobalState :=
  let p := kubeConfig home credentialContent st
  let q := ToRawKubeConfigLoader p.1
  let st2 : GlobalState := ⟨some q.2⟩
  match Nsp q.1 with
  | (ns, _, none) => (ns, st2)
  | (_, _, some _) => ("default", st2)

/-- Default value a flag is registered with (string, string-array and bool
flags occur in `AddFlags`). -/
inductive FlagValue where
  | str (v : String)
  | strArray (v : List String)
  | bool (v : Bool)
deriving DecidableEq, Repr

/-- One flag registered on a `pflag.FlagSet`: long name, optional one-letter
shorthand, default value and usage text. -/
structure PFlag where
  name : String
  shorthand : Option String
  value : FlagValue
  usage : String
deriving DecidableEq, Repr

/-- Model of the vendored `pflag.FlagSet`: the sequence of registered flags. -/
abbrev FlagSet := List PFlag

/-- Model of `pflag.FlagSet.StringVar`: registers one string flag whose default
is the current value of the bound field. -/
def FlagSet.StringVar (fs : FlagSet) (name value usage : String) : FlagSet :=
  fs ++ [⟨name, none, FlagValue.str value, usage⟩]

/-- Model of `pflag.FlagSet.StringVarP` (with a one-letter shorthand). -/
def FlagSet.StringVarP (fs : FlagSet) (name shorthand value usage : String) : FlagSet :=
  fs ++ [⟨name, some shorthand, FlagValue.str value, usage⟩]

/-- Model of `pflag.FlagSet.BoolVar`. -/
def FlagSet.BoolVar (fs : FlagSet) (name : String) (value : Bool) (usage : String) : FlagSet :=
  fs ++ [⟨name, none, FlagValue.bool value, usage⟩]

/-- Model of `pflag.FlagSet.StringArrayVar`. -/
def FlagSet.StringArrayVar (fs : FlagSet) (name : String) (value : List String)
    (usage : String) : FlagSet :=
  fs ++ [⟨name, none, FlagValue.strArray value, usage⟩]

/-- The Go pattern `if f.X != nil then register X` guarding every registration
in `AddFlags`: the registration runs only when the optional field is set. -/
def whenSet (o : Option α) (reg : α → FlagSet → FlagSet) (fs : FlagSet) : FlagSet :=
  match o with
  | some v => reg v fs
  | none => fs

/-- Flag-name constants (config_flags.go lines 42-59). -/
def flagClusterName : String := "cluster"
def flagAuthInfoName : String := "user"
def flagContext : String := "context"
def flagNamespace : String := "namespace"
def flagAPIServer : String := "server"
def flagInsecure : String := "insecure-skip-tls-verify"
def flagCertFile : String := "client-certificate"
def flagKeyFile : String := "client-key"
def flagCAFile : String := "certificate-authority"
def flagBearerToken : String := "token"
def flagImpersonate : String := "as"
def flagImpersonateGroup : String := "as-group"
def flagUsername : String := "username"
def flagPassword : String := "password"
def flagTimeout : String := "request-timeout"
def flagHTTPCacheDir : String := "cache-dir"

/-- Embedding of `AddFlags` (lines 187-243): each non-nil optional field
registers exactly one flag, in source order, with the field's current value as
the default. -/
def AddFlags (f : ConfigFlags) (flags : FlagSet) : FlagSet :=
  let flags := whenSet f.KubeConfig (fun v fs =>
    fs.StringVar "kubeconfig" v "Path to the kubeconfig file to use for CLI requests.") flags
  let flags := whenSet f.CacheDir (fun v fs =>
    fs.StringVar flagHTTPCacheDir v "Default HTTP cache directory") flags
  let flags := whenSet f.CertFile (fun v fs =>
    fs.StringVar flagCertFile v "Path to a client certificate file for TLS") flags
  let flags := whenSet f.KeyFile (fun v fs =>
    fs.StringVar flagKeyFile v "Path to a client key file for TLS") flags
  let flags := whenSet f.BearerToken (fun v fs =>
    fs.StringVar flagBearerToken v "Bearer token for authentication to the API server") flags
  let flags := whenSet f.Impersonate (fun v fs =>
    fs.StringVar flagImpersonate v "Username to impersonate for the operation") flags
  let flags := whenSet f.ImpersonateGroup (fun v fs =>
    fs.StringArrayVar flagImpersonateGroup v "Group to impersonate for the operation, this flag can be repeated to specify multiple groups.") flags
  let flags := whenSet f.Username (fun v fs =>
    fs.StringVar flagUsername v "Username for basic authentication to the API server") flags
  let flags := whenSet f.Password (fun v fs =>
    fs.StringVar flagPassword v "Password for basic authentication to the API server") flags
  let flags := whenSet f.ClusterName (fun v fs =>
    fs.StringVar flagClusterName v "The name of the kubeconfig cluster to use") flags
  let flags := whenSet f.AuthInfoName (fun v fs =>
    fs.StringVar flagAuthInfoName v "The name of the kubeconfig user to use") flags
  let flags := whenSet f.Namespace (fun v fs =>
    fs.StringVarP flagNamespace "n" v "If present, the namespace scope for this CLI request") flags
  let flags := whenSet f.Context (fun v fs =>
    fs.StringVar flagContext v "The name of the kubeconfig context to use") flags
  let flags := whenSet f.APIServer (fun v fs =>
    fs.StringVarP flagAPIServer "s" v "The address and port of the Kubernetes API server") flags
  let flags := whenSet f.Insecure (fun v fs =>
    fs.BoolVar flagInsecure v "If true, the server's certificate will not be checked for validity. This will make your HTTPS connections insecure") flags
  let flags := whenSet f.CAFile (fun v fs =>
    fs.StringVar flagCAFile v "Path to a cert file for the certificate authority") flags
  let flags := whenSet f.Timeout (fun v fs =>
    fs.StringVar flagTimeout v "The length of time to wait before giving up on a single server request. Non-zero values should contain a corresponding time unit (e.g. 1s, 2m, 3h). A value of zero means don't timeout requests.") flags
  flags

/-- Abstract model of the discovery client the commented-out
`ToDiscoveryClient` body would have produced (never constructed). -/
structure CachedDiscoveryInterface where
  id : Nat
deriving DecidableEq, Repr

/-- Model of `restmapper.NewDeferredDiscoveryRESTMapper`: records the discovery
client it was given (here always `nil`). -/
structure DeferredDiscoveryRESTMapper where
  cl : Option CachedDiscoveryInterface
deriving DecidableEq, Repr

def restmapper_NewDeferredDiscoveryRESTMapper
    (cl : Option CachedDiscoveryInterface) : DeferredDiscoveryRESTMapper :=
  ⟨cl⟩

/-- Model of `restmapper.NewShortcutExpander`: records its delegate mapper and
discovery client. -/
structure ShortcutExpander where
  delegate : DeferredDiscoveryRESTMapper
  cl : Option CachedDiscoveryInterface
deriving DecidableEq, Repr

def restmapper_NewShortcutExpander (m : DeferredDiscoveryRESTMapper)
    (cl : Option CachedDiscoveryInterface) : ShortcutExpander :=
  ⟨m, cl⟩

/-- Embedding of `ToDiscoveryClient` (lines 151-172): the entire body is
commented out and it returns `nil, nil`. -/
def ToDiscoveryClient (_f : ConfigFlags) : Option CachedDiscoveryInterface × Option Err :=
  (none, none)

/-- Embedding of `ToRESTMapper` (lines 175-184). -/
def ToRESTMapper (f : ConfigFlags) : Option ShortcutExpander × Option Err :=
  let p := ToDiscoveryClient f
  match p.2 with
  | some e => (none, some e)
  | none =>
      let mapper := restmapper_NewDeferredDiscoveryRESTMapper p.1
      let expander := restmapper_NewShortcutExpander mapper p.1
      (some expander, none)

/-- Abstract model of the Kubernetes clientset obtained from
`kc.KubernetesClientSet()`; the `id` distinguishes distinct clientsets. -/
structure Clientset where
  id : Nat
deriving DecidableEq, Repr

/-- Model of the clientset's `CoreV1()` interface. -/
structure CoreV1Interface where
  client : Clientset
deriving DecidableEq, Repr

/-- Model of the namespace-scoped `Secrets(namespace)` interface. -/
structure SecretInterface where
  client : Clientset
  ns : String
deriving DecidableEq, Repr

/-- Model of the namespace-scoped `ConfigMaps(namespace)` interface. -/
structure ConfigMapInterface where
  client : Clientset
  ns : String
deriving DecidableEq, Repr

def Clientset.CoreV1 (c : Clientset) : CoreV1Interface :=
  ⟨c⟩

def CoreV1Interface.Secrets (c : CoreV1Interface) (ns : String) : SecretInterface :=
  ⟨c.client, ns⟩

def CoreV1Interface.ConfigMaps (c : CoreV1Interface) (ns : String) : ConfigMapInterface :=
  ⟨c.client, ns⟩

/-- Model of the Helm release-storage drivers: `driver.NewSecrets` and
`driver.NewConfigMaps` record the namespace-scoped interface they were built
over; `driver.NewMemory` takes no argument at all. -/
inductive StorageDriver where
  | Secrets (impl : SecretInterface)
  | ConfigMaps (impl : ConfigMapInterface)
  | Memory
deriving DecidableEq, Repr

def driver_NewSecrets (impl : SecretInterface) : StorageDriver :=
  StorageDriver.Secrets impl

def driver_NewConfigMaps (impl : ConfigMapInterface) : StorageDriver :=
  StorageDriver.ConfigMaps impl

def driver_NewMemory : StorageDriver :=
  StorageDriver.Memory

/-- Model of Helm's `storage.Storage`: wraps the backing driver. -/
structure Storage where
  driver : StorageDriver
deriving DecidableEq, Repr

/-- Model of `storage.Init`. -/
def storage_Init (d : StorageDriver) : Storage :=
  ⟨d⟩

/-- Model of `kube.New(getter)`: records the REST client getter it wraps. -/
structure KubeClient where
  getter : ConfigFlags
deriving DecidableEq, Repr

def kube_New (getter : ConfigFlags) : KubeClient :=
  ⟨getter⟩

/-- Embedding of Helm's `action.Configuration` as populated by
`NewActionConfig` (lines 335-340). -/
structure ActionConfiguration where
  RESTClientGetter : ConfigFlags
  KubeClient : KubeClient
  Releases : Storage
  Log : Option Unit
deriving DecidableEq, Repr

/-- Embedding of `NewActionConfig` (lines 303-341).  `Nsp` is the loader's
`Namespace()` oracle, `KubernetesClientSet` the clientset factory oracle,
`helmDriver` the value of `os.Getenv("HELM_DRIVER")` and `home` the ambient
home directory.  `log.Fatal` on clientset failure and the `panic` on an
unknown driver both terminate the process: the model returns `none`. -/
def NewActionConfig (Nsp : ClientConfig → String × Bool × Option Err)
    (KubernetesClientSet : KubeClient → Except Err Clientset)
    (helmDriver home : String) (allNamespaces : Bool)
    (credentialContent : List Nat) (st : GlobalState) :
    Option (ActionConfiguration × GlobalState) :=
  let p1 := kubeConfig home credentialContent st
  let kc := kube_New p1.1
  match KubernetesClientSet kc with
  | Except.error _ => none
  | Except.ok clientset =>
      let p2 : String × GlobalState :=
        if !allNamespaces then getNamespace Nsp home credentialContent p1.2
        else ("", p1.2)
      let ns := p2.1
      let store? : Option Storage :=
        match helmDriver with
        | "secret" | "secrets" | "" =>
            some (storage_Init (driver_NewSecrets (clientset.CoreV1.Secrets ns)))
        | "configmap" | "configmaps" =>
            some (storage_Init (driver_NewConfigMaps (clientset.CoreV1.ConfigMaps ns)))
        | "memory" =>
            some (storage_Init driver_NewMemory)
        | _ => none
      match store? with
      | none => none
      | some store =>
          let p3 := kubeConfig home credentialContent p2.2
          some ({ RESTClientGetter := p3.1
                  KubeClient := kc
                  Releases := store
                  Log := none }, p3.2)

/-- The all-default, zero-valued `ConfigFlags` record: every optional field
`nil`, no credential content, non-persistent. -/
def emptyConfigFlags : ConfigFlags := {}

/-- C10: for every `ConfigFlags` record, `ToDiscoveryClient` returns a nil
discovery client and a nil error, so `ToRESTMapper` never returns an error and
always returns the shortcut-expander mapper built over a nil discovery
client. -/
theorem toDiscoveryClient_nil_and_toRESTMapper_total (f : ConfigFlags) :
    ToDiscoveryClient f = (none, none) ∧
    ToRESTMapper f =
      (some (restmapper_NewShortcutExpander
        (restmapper_NewDeferredDiscoveryRESTMapper none) none), none) :=
  ⟨rfl, rfl⟩

/-- C2: the process-wide loader is built at most once.  A first call on the
uninitialized state constructs `NewConfigFlags false cred home` and stores it;
a call on an initialized state returns the stored value and leaves the state
unchanged, whatever credential bytes are passed; in particular a second call
right after a first one returns exactly the first call's result. -/
theorem kubeConfig_initializes_once (home : String) (cred1 cred2 : List Nat)
    (st : GlobalState) :
    (st.config = none →
      kubeConfig home cred1 st =
        (NewConfigFlags false cred1 home, ⟨some (NewConfigFlags false cred1 home)⟩))
    ∧ (∀ c, st.config = some c → kubeConfig home cred2 st = (c, st))
    ∧ kubeConfig home cred2 (kubeConfig home cred1 st).2 =
        ((kubeConfig home cred1 st).1, (kubeConfig home cred1 st).2) := by
  refine ⟨?_, ?_, ?_⟩
  · intro h
    simp [kubeConfig, h]
  · intro c h
    simp [kubeConfig, h]
  · cases hst : st.config <;> simp [kubeConfig, hst]

/-- C2 witness: starting uninitialized, the first call with credential bytes
`[1]` builds the loader from them, and a second call with different bytes
`[2]` returns the very same loader and state. -/
theorem kubeConfig_initializes_once_witness :
    kubeConfig "/root" [1] ⟨none⟩ =
      (NewConfigFlags false [1] "/root", ⟨some (NewConfigFlags false [1] "/root")⟩)
    ∧ kubeConfig "/root" [2] ⟨some (NewConfigFlags false [1] "/root")⟩ =
        (NewConfigFlags false [1] "/root", ⟨some (NewConfigFlags false [1] "/root")⟩) :=
  ⟨(kubeConfig_initializes_once "/root" [1] [2] ⟨none⟩).1 rfl,
   (kubeConfig_initializes_once "/root" [1] [2]
      ⟨some (NewConfigFlags false [1] "/root")⟩).2.1
      (NewConfigFlags false [1] "/root") rfl⟩

/-- C4: `getNamespace` returns the literal string "default" whenever the
loader's `Namespace()` call reports a non-nil error, and returns the loader's
namespace otherwise; the error value itself is never part of the result. -/
theorem getNamespace_defaults_on_error
    (Nsp : ClientConfig → String × Bool × Option Err)
    (home : String) (cred : List Nat) (st : GlobalState) :
    (∀ ns ov e,
      Nsp (ToRawKubeConfigLoader (kubeConfig home cred st).1).1 = (ns, ov, some e) →
        (getNamespace Nsp home cred st).1 = "default")
    ∧ (∀ ns ov,
      Nsp (ToRawKubeConfigLoader (kubeConfig home cred st).1).1 = (ns, ov, none) →
        (getNamespace Nsp home cred st).1 = ns) := by
  constructor
  · intro ns ov e h
    simp [getNamespace, h]
  · intro ns ov h
    simp [getNamespace, h]

/-- C4 witness: with a loader oracle that reports the error "boom" alongside
the namespace "team-a", `getNamespace` returns "default"; with an error-free
oracle it returns the reported namespace. -/
theorem getNamespace_defaults_on_error_witness :
    (getNamespace (fun _ => ("team-a", false, some "boom")) "/root" [] ⟨none⟩).1 = "default"
    ∧ (getNamespace (fun _ => ("team-a", false, none)) "/root" [] ⟨none⟩).1 = "team-a" :=
  ⟨(getNamespace_defaults_on_error (fun _ => ("team-a", false, some "boom"))
      "/root" [] ⟨none⟩).1 "team-a" false "boom" rfl,
   (getNamespace_defaults_on_error (fun _ => ("team-a", false, none))
      "/root" [] ⟨none⟩).2 "team-a" false rfl⟩

/-- C3: on a record with `usePersistentConfig` false, `ToRawKubeConfigLoader`
builds the loader from empty credential bytes, leaves the record untouched,
and the result coincides with the loader of the all-default empty
configuration and with that of any other non-persistent record — every
override field and the stored `CredentialContent` are ignored. -/
theorem toRawKubeConfigLoader_ignores_overrides (f g : ConfigFlags)
    (hf : f.usePersistentConfig = false) :
    (ToRawKubeConfigLoader f).1 = (NewClientConfigFromBytes []).1
    ∧ (ToRawKubeConfigLoader f).1 = toRawKubeConfigLoader emptyConfigFlags
    ∧ (ToRawKubeConfigLoader f).2 = f
    ∧ (g.usePersistentConfig = false →
        (ToRawKubeConfigLoader f).1 = (ToRawKubeConfigLoader g).1) := by
  refine ⟨?_, ?_, ?_, ?_⟩
  · simp [ToRawKubeConfigLoader, hf, toRawKubeConfigLoader]
  · simp [ToRawKubeConfigLoader, hf, toRawKubeConfigLoader]
  · simp [ToRawKubeConfigLoader, hf]
  · intro hg
    simp [ToRawKubeConfigLoader, hf, hg, toRawKubeConfigLoader]

/-- C3 witness: a non-persistent record with overrides and credential bytes
set yields the same loader as the empty configuration — the loader over the
empty byte slice. -/
theorem toRawKubeConfigLoader_ignores_overrides_witness :
    ({ emptyConfigFlags with APIServer := some "https://x" , CredentialContent := [7]
       } : ConfigFlags).usePersistentConfig = false
    ∧ (ToRawKubeConfigLoader
        { emptyConfigFlags with APIServer := some "https://x" , CredentialContent := [7] }).1
        = (NewClientConfigFromBytes []).1 :=
  ⟨rfl,
   (toRawKubeConfigLoader_ignores_overrides
      { emptyConfigFlags with APIServer := some "https://x" , CredentialContent := [7] }
      emptyConfigFlags rfl).1⟩

/-- C1: when `HELM_DRIVER` holds a value outside the six recognized driver
selections, `NewActionConfig` terminates (models the `panic`) without
returning any configuration value, for every `allNamespaces` flag, credential
bytes, oracle behaviour and global state. -/
theorem newActionConfig_unknownDriver_terminates
    (Nsp : ClientConfig → String × Bool × Option Err)
    (KCS : KubeClient → Except Err Clientset)
    (helmDriver home : String) (allNamespaces : Bool)
    (cred : List Nat) (st : GlobalState)
    (h : helmDriver ∉ ["secret", "secrets", "", "configmap", "configmaps", "memory"]) :
    NewActionConfig Nsp KCS helmDriver home allNamespaces cred st = none := by
  simp only [List.mem_cons, List.not_mem_nil, or_false, not_or] at h
  obtain ⟨h1, h2, h3, h4, h5, h6⟩ := h
  rcases hKCS : KCS (kube_New (kubeConfig home cred st).1) with e | cs
  · simp [NewActionConfig, hKCS]
  · simp only [NewActionConfig, hKCS]

/-- C1 witness: with `HELM_DRIVER="bogus"` and otherwise healthy oracles, no
configuration is returned. -/
theorem newActionConfig_unknownDriver_terminates_witness :
    "bogus" ∉ ["secret", "secrets", "", "configmap", "configmaps", "memory"]
    ∧ NewActionConfig (fun _ => ("ns0", false, none)) (fun _ => Except.ok ⟨0⟩)
        "bogus" "/root" false [] ⟨none⟩ = none :=
  ⟨by decide,
   newActionConfig_unknownDriver_terminates (fun _ => ("ns0", false, none))
     (fun _ => Except.ok ⟨0⟩) "bogus" "/root" false [] ⟨none⟩ (by decide)⟩

/-- C5: with `HELM_DRIVER` unset or "secret"/"secrets" and a clientset
successfully constructed, `NewActionConfig` stores in `Releases` the
Secrets-backed store scoped to the working namespace: the resolved namespace,
or the empty string when `allNamespaces` is true. -/
theorem newActionConfig_secretsDriver
    (Nsp : ClientConfig → String × Bool × Option Err)
    (KCS : KubeClient → Except Err Clientset)
    (helmDriver home : String) (allNamespaces : Bool)
    (cred : List Nat) (st : GlobalState) (cs : Clientset)
    (hKCS : KCS (kube_New (kubeConfig home cred st).1) = Except.ok cs)
    (hd : helmDriver = "secret" ∨ helmDriver = "secrets" ∨ helmDriver = "") :
    (NewActionConfig Nsp KCS helmDriver home allNamespaces cred st).map
        (fun p => p.1.Releases)
      = some (storage_Init (driver_NewSecrets (cs.CoreV1.Secrets
          (if allNamespaces then ""
           else (getNamespace Nsp home cred (kubeConfig home cred st).2).1)))) := by
  rcases hd with hd | hd | hd <;> subst hd <;>
    cases allNamespaces <;> simp [NewActionConfig, hKCS]

/-- C5 witness: with `HELM_DRIVER="secret"`, a loader resolving namespace
"ns0" and a working clientset, the returned configuration's release store is
the Secrets driver scoped to "ns0". -/
theorem newActionConfig_secretsDriver_witness :
    (fun _ : KubeClient => (Except.ok ⟨0⟩ : Except Err Clientset))
        (kube_New (kubeConfig "/root" [] ⟨none⟩).1) = Except.ok (⟨0⟩ : Clientset)
    ∧ (NewActionConfig (fun _ => ("ns0", false, none)) (fun _ => Except.ok ⟨0⟩)
        "secret" "/root" false [] ⟨none⟩).map (fun p => p.1.Releases)
      = some (storage_Init (driver_NewSecrets ⟨⟨0⟩, "ns0"⟩)) := by
  refine ⟨rfl, ?_⟩
  have h := newActionConfig_secretsDriver (fun _ => ("ns0", false, none))
    (fun _ => Except.ok ⟨0⟩) "secret" "/root" false [] ⟨none⟩ ⟨0⟩ rfl (Or.inl rfl)
  exact h.trans rfl

/-- C6: with `HELM_DRIVER="memory"` and a clientset successfully constructed,
`NewActionConfig` stores the in-memory driver, whose constructor takes no
namespace argument, in the returned configuration's `Releases` field. -/
theorem newActionConfig_memoryDriver
    (Nsp : ClientConfig → String × Bool × Option Err)
    (KCS : KubeClient → Except Err Clientset)
    (home : String) (allNamespaces : Bool)
    (cred : List Nat) (st : GlobalState) (cs : Clientset)
    (hKCS : KCS (kube_New (kubeConfig home cred st).1) = Except.ok cs) :
    (NewActionConfig Nsp KCS "memory" home allNamespaces cred st).map
        (fun p => p.1.Releases)
      = some (storage_Init driver_NewMemory) := by
  cases allNamespaces <;> simp [NewActionConfig, hKCS]

/-- C6 witness: with `HELM_DRIVER="memory"` the returned release store is the
in-memory driver. -/
theorem newActionConfig_memoryDriver_witness :
    (fun _ : KubeClient => (Except.ok ⟨0⟩ : Except Err Clientset))
        (kube_New (kubeConfig "/root" [] ⟨none⟩).1) = Except.ok (⟨0⟩ : Clientset)
    ∧ (NewActionConfig (fun _ => ("ns0", false, none)) (fun _ => Except.ok ⟨0⟩)
        "memory" "/root" true [] ⟨none⟩).map (fun p => p.1.Releases)
      = some (storage_Init driver_NewMemory) :=
  ⟨rfl,
   newActionConfig_memoryDriver (fun _ => ("ns0", false, none))
     (fun _ => Except.ok ⟨0⟩) "/root" true [] ⟨none⟩ ⟨0⟩ rfl⟩

/-- C7: with `allNamespaces = true` the result does not depend on the loader's
namespace oracle at all (the namespace-resolution step is never consulted),
and the Secrets/ConfigMaps driver is scoped to the empty-string namespace. -/
theorem newActionConfig_allNamespaces_emptyScope
    (Nsp Nsp' : ClientConfig → String × Bool × Option Err)
    (KCS : KubeClient → Except Err Clientset)
    (helmDriver home : String) (cred : List Nat) (st : GlobalState) :
    NewActionConfig Nsp KCS helmDriver home true cred st
      = NewActionConfig Nsp' KCS helmDriver home true cred st
    ∧ (∀ cs, KCS (kube_New (kubeConfig home cred st).1) = Except.ok cs →
        ((helmDriver = "secret" ∨ helmDriver = "secrets" ∨ helmDriver = "") →
          (NewActionConfig Nsp KCS helmDriver home true cred st).map
              (fun p => p.1.Releases)
            = some (storage_Init (driver_NewSecrets (cs.CoreV1.Secrets ""))))
        ∧ ((helmDriver = "configmap" ∨ helmDriver = "configmaps") →
          (NewActionConfig Nsp KCS helmDriver home true cred st).map
              (fun p => p.1.Releases)
            = some (storage_Init (driver_NewConfigMaps (cs.CoreV1.ConfigMaps ""))))) := by
  refine ⟨by simp [NewActionConfig], ?_⟩
  intro cs hKCS
  constructor
  · rintro (hd | hd | hd) <;> subst hd <;> simp [NewActionConfig, hKCS]
  · rintro (hd | hd) <;> subst hd <;> simp [NewActionConfig, hKCS]

/-- C7 witness: with `allNamespaces = true`, `HELM_DRIVER="configmaps"` and a
loader oracle that would resolve namespace "ns0", the ConfigMaps driver is
nevertheless scoped to the empty string. -/
theorem newActionConfig_allNamespaces_emptyScope_witness :
    (fun _ : KubeClient => (Except.ok ⟨0⟩ : Except Err Clientset))
        (kube_New (kubeConfig "/root" [] ⟨none⟩).1) = Except.ok (⟨0⟩ : Clientset)
    ∧ (NewActionConfig (fun _ => ("ns0", false, none)) (fun _ => Except.ok ⟨0⟩)
        "configmaps" "/root" true [] ⟨none⟩).map (fun p => p.1.Releases)
      = some (storage_Init (driver_NewConfigMaps ⟨⟨0⟩, ""⟩)) := by
  refine ⟨rfl, ?_⟩
  have h := ((newActionConfig_allNamespaces_emptyScope (fun _ => ("ns0", false, none))
    (fun _ => ("ns1", false, none)) (fun _ => Except.ok ⟨0⟩)
    "configmaps" "/root" [] ⟨none⟩).2 ⟨0⟩ rfl).2 (Or.inr rfl)
  exact h.trans rfl

/-- Helper: for a non-empty home directory the computed default cache
directory is literally `<home>/.kube/http-cache`. -/
theorem defaultCacheDir_eq (home : String) (h : home ≠ "") :
    defaultCacheDir home = home ++ "/.kube/http-cache" := by
  simp [defaultCacheDir, filepath_Join, h, String.append_assoc]

/-- C9 counterexample: `NewConfigFlags` leaves the optional override fields
`Username` and `Password` nil, refuting the claim that no optional override
field is left nil. -/
theorem newConfigFlags_username_password_nil :
    (NewConfigFlags false [] "/home/user").Username = none
    ∧ (NewConfigFlags false [] "/home/user").Password = none :=
  ⟨rfl, rfl⟩

/-- C9 (amended): `NewConfigFlags` returns a record with `Insecure` false,
`Timeout` "0", `CacheDir` the path `<home>/.kube/http-cache`, every other
optional string override field except `Username` and `Password` set to the
empty string, `ImpersonateGroup` the empty list — while `Username` and
`Password` are left nil. -/
theorem newConfigFlags_defaults (persist : Bool) (cred : List Nat)
    (home : String) (h : home ≠ "") :
    (NewConfigFlags persist cred home).Insecure = some false
    ∧ (NewConfigFlags persist cred home).Timeout = some "0"
    ∧ (NewConfigFlags persist cred home).CacheDir = some (home ++ "/.kube/http-cache")
    ∧ (NewConfigFlags persist cred home).KubeConfig = some ""
    ∧ (NewConfigFlags persist cred home).ClusterName = some ""
    ∧ (NewConfigFlags persist cred home).AuthInfoName = some ""
    ∧ (NewConfigFlags persist cred home).Context = some ""
    ∧ (NewConfigFlags persist cred home).Namespace = some ""
    ∧ (NewConfigFlags persist cred home).APIServer = some ""
    ∧ (NewConfigFlags persist cred home).CertFile = some ""
    ∧ (NewConfigFlags persist cred home).KeyFile = some ""
    ∧ (NewConfigFlags persist cred home).CAFile = some ""
    ∧ (NewConfigFlags persist cred home).BearerToken = some ""
    ∧ (NewConfigFlags persist cred home).Impersonate = some ""
    ∧ (NewConfigFlags persist cred home).ImpersonateGroup = some []
    ∧ (NewConfigFlags persist cred home).Username = none
    ∧ (NewConfigFlags persist cred home).Password = none
    ∧ (NewConfigFlags persist cred home).usePersistentConfig = persist
    ∧ (NewConfigFlags persist cred home).CredentialContent = cred := by
  refine ⟨rfl, rfl, ?_, rfl, rfl, rfl, rfl, rfl, rfl, rfl, rfl, rfl, rfl, rfl,
    rfl, rfl, rfl, rfl, rfl⟩
  show some (defaultCacheDir home) = some (home ++ "/.kube/http-cache")
  rw [defaultCacheDir_eq home h]

/-- C9 witness: the defaults at a concrete home directory, in particular the
computed cache directory `/home/user/.kube/http-cache`. -/
theorem newConfigFlags_defaults_witness :
    (NewConfigFlags false [3] "/home/user").CacheDir
        = some "/home/user/.kube/http-cache"
    ∧ (NewConfigFlags false [3] "/home/user").Insecure = some false
    ∧ (NewConfigFlags false [3] "/home/user").Timeout = some "0"
    ∧ (NewConfigFlags false [3] "/home/user").Username = none := by
  have h := newConfigFlags_defaults false [3] "/home/user" (by decide)
  exact ⟨h.2.2.1.trans rfl, h.1, h.2.1,
    h.2.2.2.2.2.2.2.2.2.2.2.2.2.2.2.2.1⟩

/-- Flags contributed by one optional field: one flag when the field is set,
none otherwise. -/
def optFlag (o : Option α) (mk : α → PFlag) : List PFlag :=
  match o with
  | some v => [mk v]
  | none => []

/-- Name/default pairs contributed by one optional field. -/
def optPair (n : String) (o : Option α) (mk : α → FlagValue) : List (String × FlagValue) :=
  match o with
  | some v => [(n, mk v)]
  | none => []

/-- The name/default pairs of the flags `AddFlags` registers on an empty flag
set under a given flag name. -/
def regFlags (f : ConfigFlags) (n : String) : List (String × FlagValue) :=
  ((AddFlags f []).filter (fun fl => fl.name == n)).map (fun fl => (fl.name, fl.value))

theorem whenSet_StringVar (o : Option String) (n u : String) (flags : FlagSet) :
    whenSet o (fun v fs => FlagSet.StringVar fs n v u) flags
      = flags ++ optFlag o (fun v => ⟨n, none, FlagValue.str v, u⟩) := by
  cases o <;> simp [whenSet, FlagSet.StringVar, optFlag]

theorem whenSet_StringVarP (o : Option String) (n sh u : String) (flags : FlagSet) :
    whenSet o (fun v fs => FlagSet.StringVarP fs n sh v u) flags
      = flags ++ optFlag o (fun v => ⟨n, some sh, FlagValue.str v, u⟩) := by
  cases o <;> simp [whenSet, FlagSet.StringVarP, optFlag]

theorem whenSet_BoolVar (o : Option Bool) (n u : String) (flags : FlagSet) :
    whenSet o (fun v fs => FlagSet.BoolVar fs n v u) flags
      = flags ++ optFlag o (fun v => ⟨n, none, FlagValue.bool v, u⟩) := by
  cases o <;> simp [whenSet, FlagSet.BoolVar, optFlag]

theorem whenSet_StringArrayVar (o : Option (List String)) (n u : String) (flags : FlagSet) :
    whenSet o (fun v fs => FlagSet.StringArrayVar fs n v u) flags
      = flags ++ optFlag o (fun v => ⟨n, none, FlagValue.strArray v, u⟩) := by
  cases o <;> simp [whenSet, FlagSet.StringArrayVar, optFlag]

theorem optFlag_some (v : α) (mk : α → PFlag) : optFlag (some v) mk = [mk v] := rfl

theorem optFlag_none (mk : α → PFlag) : optFlag (none : Option α) mk = [] := rfl

theorem forall_mem_optFlag (P : PFlag → Prop) (o : Option α) (mk : α → PFlag) :
    (∀ a ∈ optFlag o mk, P a) ↔ (∀ v, o = some v → P (mk v)) := by
  cases o <;> simp [optFlag]

theorem filter_optFlag_ne (p : PFlag → Bool) (o : Option α) (mk : α → PFlag)
    (h : ∀ v, p (mk v) = false) :
    (optFlag o mk).filter p = [] := by
  cases o <;> simp [optFlag, h]

/-- C8: `AddFlags` registers a flag for an optional field exactly when the
field's pointer is non-nil.  On an all-nil record it registers zero flags, and
under each of the seventeen documented flag names it registers exactly the
name/default pair of the corresponding field — one flag with the field's
current value as default when the field is set, no flag otherwise. -/
theorem addFlags_registers_iff_nonNil (f : ConfigFlags) :
    (f.KubeConfig = none → f.CacheDir = none → f.CertFile = none → f.KeyFile = none →
     f.BearerToken = none → f.Impersonate = none → f.ImpersonateGroup = none →
     f.Username = none → f.Password = none → f.ClusterName = none →
     f.AuthInfoName = none → f.Namespace = none → f.Context = none →
     f.APIServer = none → f.Insecure = none → f.CAFile = none → f.Timeout = none →
     AddFlags f [] = [])
    ∧ regFlags f "kubeconfig" = optPair "kubeconfig" f.KubeConfig FlagValue.str
    ∧ regFlags f "cache-dir" = optPair "cache-dir" f.CacheDir FlagValue.str
    ∧ regFlags f "client-certificate" = optPair "client-certificate" f.CertFile FlagValue.str
    ∧ regFlags f "client-key" = optPair "client-key" f.KeyFile FlagValue.str
    ∧ regFlags f "token" = optPair "token" f.BearerToken FlagValue.str
    ∧ regFlags f "as" = optPair "as" f.Impersonate FlagValue.str
    ∧ regFlags f "as-group" = optPair "as-group" f.ImpersonateGroup FlagValue.strArray
    ∧ regFlags f "username" = optPair "username" f.Username FlagValue.str
    ∧ regFlags f "password" = optPair "password" f.Password FlagValue.str
    ∧ regFlags f "cluster" = optPair "cluster" f.ClusterName FlagValue.str
    ∧ regFlags f "user" = optPair "user" f.AuthInfoName FlagValue.str
    ∧ regFlags f "namespace" = optPair "namespace" f.Namespace FlagValue.str
    ∧ regFlags f "context" = optPair "context" f.Context FlagValue.str
    ∧ regFlags f "server" = optPair "server" f.APIServer FlagValue.str
    ∧ regFlags f "insecure-skip-tls-verify"
        = optPair "insecure-skip-tls-verify" f.Insecure FlagValue.bool
    ∧ regFlags f "certificate-authority"
        = optPair "certificate-authority" f.CAFile FlagValue.str
    ∧ regFlags f "request-timeout" = optPair "request-timeout" f.Timeout FlagValue.str := by
  refine ⟨?_, ?_, ?_, ?_, ?_, ?_, ?_, ?_, ?_, ?_, ?_, ?_, ?_, ?_, ?_, ?_, ?_, ?_⟩
  · intro h1 h2 h3 h4 h5 h6 h7 h8 h9 h10 h11 h12 h13 h14 h15 h16 h17
    simp [AddFlags, whenSet, h1, h2, h3, h4, h5, h6, h7, h8, h9, h10, h11, h12,
      h13, h14, h15, h16, h17]
  · cases hx : f.KubeConfig <;>
      simp [regFlags, AddFlags, whenSet_StringVar, whenSet_StringVarP, whenSet_BoolVar,
        whenSet_StringArrayVar, List.filter_append, List.map_append,
        optFlag_some, optFlag_none, forall_mem_optFlag, filter_optFlag_ne, optPair, hx,
        flagHTTPCacheDir, flagCertFile, flagKeyFile, flagBearerToken, flagImpersonate,
        flagImpersonateGroup, flagUsername, flagPassword, flagClusterName,
        flagAuthInfoName, flagNamespace, flagContext, flagAPIServer, flagInsecure,
        flagCAFile, flagTimeout]
  · cases hx : f.CacheDir <;>
      simp [regFlags, AddFlags, whenSet_StringVar, whenSet_StringVarP, whenSet_BoolVar,
        whenSet_StringArrayVar, List.filter_append, List.map_append,
        optFlag_some, optFlag_none, forall_mem_optFlag, filter_optFlag_ne, optPair, hx,
        flagHTTPCacheDir, flagCertFile, flagKeyFile, flagBearerToken, flagImpersonate,
        flagImpersonateGroup, flagUsername, flagPassword, flagClusterName,
        flagAuthInfoName, flagNamespace, flagContext, flagAPIServer, flagInsecure,
        flagCAFile, flagTimeout]
  · cases hx : f.CertFile <;>
      simp [regFlags, AddFlags, whenSet_StringVar, whenSet_StringVarP, whenSet_BoolVar,
        whenSet_StringArrayVar, List.filter_append, List.map_append,
        optFlag_some, optFlag_none, forall_mem_optFlag, filter_optFlag_ne, optPair, hx,
        flagHTTPCacheDir, flagCertFile, flagKeyFile, flagBearerToken, flagImpersonate,
        flagImpersonateGroup, flagUsername, flagPassword, flagClusterName,
        flagAuthInfoName, flagNamespace, flagContext, flagAPIServer, flagInsecure,
        flagCAFile, flagTimeout]
  · cases hx : f.KeyFile <;>
      simp [regFlags, AddFlags, whenSet_StringVar, whenSet_StringVarP, whenSet_BoolVar,
        whenSet_StringArrayVar, List.filter_append, List.map_append,
        optFlag_some, optFlag_none, forall_mem_optFlag, filter_optFlag_ne, optPair, hx,
        flagHTTPCacheDir, flagCertFile, flagKeyFile, flagBearerToken, flagImpersonate,
        flagImpersonateGroup, flagUsername, flagPassword, flagClusterName,
        flagAuthInfoName, flagNamespace, flagContext, flagAPIServer, flagInsecure,
        flagCAFile, flagTimeout]
  · cases hx : f.BearerToken <;>
      simp [regFlags, AddFlags, whenSet_StringVar, whenSet_StringVarP, whenSet_BoolVar,
        whenSet_StringArrayVar, List.filter_append, List.map_append,
        optFlag_some, optFlag_none, forall_mem_optFlag, filter_optFlag_ne, optPair, hx,
        flagHTTPCacheDir, flagCertFile, flagKeyFile, flagBearerToken, flagImpersonate,
        flagImpersonateGroup, flagUsername, flagPassword, flagClusterName,
        flagAuthInfoName, flagNamespace, flagContext, flagAPIServer, flagInsecure,
        flagCAFile, flagTimeout]
  · cases hx : f.Impersonate <;>
      simp [regFlags, AddFlags, whenSet_StringVar, whenSet_StringVarP, whenSet_BoolVar,
        whenSet_StringArrayVar, List.filter_append, List.map_append,
        optFlag_some, optFlag_none, forall_mem_optFlag, filter_optFlag_ne, optPair, hx,
        flagHTTPCacheDir, flagCertFile, flagKeyFile, flagBearerToken, flagImpersonate,
        flagImpersonateGroup, flagUsername, flagPassword, flagClusterName,
        flagAuthInfoName, flagNamespace, flagContext, flagAPIServer, flagInsecure,
        flagCAFile, flagTimeout]
  · cases hx : f.ImpersonateGroup <;>
      simp [regFlags, AddFlags, whenSet_StringVar, whenSet_StringVarP, whenSet_BoolVar,
        whenSet_StringArrayVar, List.filter_append, List.map_append,
        optFlag_some, optFlag_none, forall_mem_optFlag, filter_optFlag_ne, optPair, hx,
        flagHTTPCacheDir, flagCertFile, flagKeyFile, flagBearerToken, flagImpersonate,
        flagImpersonateGroup, flagUsername, flagPassword, flagClusterName,
        flagAuthInfoName, flagNamespace, flagContext, flagAPIServer, flagInsecure,
        flagCAFile, flagTimeout]
  · cases hx : f.Username <;>
      simp [regFlags, AddFlags, whenSet_StringVar, whenSet_StringVarP, whenSet_BoolVar,
        whenSet_StringArrayVar, List.filter_append, List.map_append,
        optFlag_some, optFlag_none, forall_mem_optFlag, filter_optFlag_ne, optPair, hx,
        flagHTTPCacheDir, flagCertFile, flagKeyFile, flagBearerToken, flagImpersonate,
        flagImpersonateGroup, flagUsername, flagPassword, flagClusterName,
        flagAuthInfoName, flagNamespace, flagContext, flagAPIServer, flagInsecure,
        flagCAFile, flagTimeout]
  · cases hx : f.Password <;>
      simp [regFlags, AddFlags, whenSet_StringVar, whenSet_StringVarP, whenSet_BoolVar,
        whenSet_StringArrayVar, List.filter_append, List.map_append,
        optFlag_some, optFlag_none, forall_mem_optFlag, filter_optFlag_ne, optPair, hx,
        flagHTTPCacheDir, flagCertFile, flagKeyFile, flagBearerToken, flagImpersonate,
        flagImpersonateGroup, flagUsername, flagPassword, flagClusterName,
        flagAuthInfoName, flagNamespace, flagContext, flagAPIServer, flagInsecure,
        flagCAFile, flagTimeout]
  · cases hx : f.ClusterName <;>
      simp [regFlags, AddFlags, whenSet_StringVar, whenSet_StringVarP, whenSet_BoolVar,
        whenSet_StringArrayVar, List.filter_append, List.map_append,
        optFlag_some, optFlag_none, forall_mem_optFlag, filter_optFlag_ne, optPair, hx,
        flagHTTPCacheDir, flagCertFile, flagKeyFile, flagBearerToken, flagImpersonate,
        flagImpersonateGroup, flagUsername, flagPassword, flagClusterName,
        flagAuthInfoName, flagNamespace, flagContext, flagAPIServer, flagInsecure,
        flagCAFile, flagTimeout]
  · cases hx : f.AuthInfoName <;>
      simp [regFlags, AddFlags, whenSet_StringVar, whenSet_StringVarP, whenSet_BoolVar,
        whenSet_StringArrayVar, List.filter_append, List.map_append,
        optFlag_some, optFlag_none, forall_mem_optFlag, filter_optFlag_ne, optPair, hx,
        flagHTTPCacheDir, flagCertFile, flagKeyFile, flagBearerToken, flagImpersonate,
        flagImpersonateGroup, flagUsername, flagPassword, flagClusterName,
        flagAuthInfoName, flagNamespace, flagContext, flagAPIServer, flagInsecure,
        flagCAFile, flagTimeout]
  · cases hx : f.Namespace <;>
      simp [regFlags, AddFlags, whenSet_StringVar, whenSet_StringVarP, whenSet_BoolVar,
        whenSet_StringArrayVar, List.filter_append, List.map_append,
        optFlag_some, optFlag_none, forall_mem_optFlag, filter_optFlag_ne, optPair, hx,
        flagHTTPCacheDir, flagCertFile, flagKeyFile, flagBearerToken, flagImpersonate,
        flagImpersonateGroup, flagUsername, flagPassword, flagClusterName,
        flagAuthInfoName, flagNamespace, flagContext, flagAPIServer, flagInsecure,
        flagCAFile, flagTimeout]
  · cases hx : f.Context <;>
      simp [regFlags, AddFlags, whenSet_StringVar, whenSet_StringVarP, whenSet_BoolVar,
        whenSet_StringArrayVar, List.filter_append, List.map_append,
        optFlag_some, optFlag_none, forall_mem_optFlag, filter_optFlag_ne, optPair, hx,
        flagHTTPCacheDir, flagCertFile, flagKeyFile, flagBearerToken, flagImpersonate,
        flagImpersonateGroup, flagUsername, flagPassword, flagClusterName,
        flagAuthInfoName, flagNamespace, flagContext, flagAPIServer, flagInsecure,
        flagCAFile, flagTimeout]
  · cases hx : f.APIServer <;>
      simp [regFlags, AddFlags, whenSet_StringVar, whenSet_StringVarP, whenSet_BoolVar,
        whenSet_StringArrayVar, List.filter_append, List.map_append,
        optFlag_some, optFlag_none, forall_mem_optFlag, filter_optFlag_ne, optPair, hx,
        flagHTTPCacheDir, flagCertFile, flagKeyFile, flagBearerToken, flagImpersonate,
        flagImpersonateGroup, flagUsername, flagPassword, flagClusterName,
        flagAuthInfoName, flagNamespace, flagContext, flagAPIServer, flagInsecure,
        flagCAFile, flagTimeout]
  · cases hx : f.Insecure <;>
      simp [regFlags, AddFlags, whenSet_StringVar, whenSet_StringVarP, whenSet_BoolVar,
        whenSet_StringArrayVar, List.filter_append, List.map_append,
        optFlag_some, optFlag_none, forall_mem_optFlag, filter_optFlag_ne, optPair, hx,
        flagHTTPCacheDir, flagCertFile, flagKeyFile, flagBearerToken, flagImpersonate,
        flagImpersonateGroup, flagUsername, flagPassword, flagClusterName,
        flagAuthInfoName, flagNamespace, flagContext, flagAPIServer, flagInsecure,
        flagCAFile, flagTimeout]
  · cases hx : f.CAFile <;>
      simp [regFlags, AddFlags, whenSet_StringVar, whenSet_StringVarP, whenSet_BoolVar,
        whenSet_StringArrayVar, List.filter_append, List.map_append,
        optFlag_some, optFlag_none, forall_mem_optFlag, filter_optFlag_ne, optPair, hx,
        flagHTTPCacheDir, flagCertFile, flagKeyFile, flagBearerToken, flagImpersonate,
        flagImpersonateGroup, flagUsername, flagPassword, flagClusterName,
        flagAuthInfoName, flagNamespace, flagContext, flagAPIServer, flagInsecure,
        flagCAFile, flagTimeout]
  · cases hx : f.Timeout <;>
      simp [regFlags, AddFlags, whenSet_StringVar, whenSet_StringVarP, whenSet_BoolVar,
        whenSet_StringArrayVar, List.filter_append, List.map_append,
        optFlag_some, optFlag_none, forall_mem_optFlag, filter_optFlag_ne, optPair, hx,
        flagHTTPCacheDir, flagCertFile, flagKeyFile, flagBearerToken, flagImpersonate,
        flagImpersonateGroup, flagUsername, flagPassword, flagClusterName,
        flagAuthInfoName, flagNamespace, flagContext, flagAPIServer, flagInsecure,
        flagCAFile, flagTimeout]

/-- C8 witness: the all-nil record registers zero flags, and a record built by
`NewConfigFlags` (whose `ClusterName` is the empty string) registers under
"cluster" exactly one flag defaulting to that empty string. -/
theorem addFlags_registers_iff_nonNil_witness :
    AddFlags emptyConfigFlags [] = []
    ∧ regFlags (NewConfigFlags false [] "/home/user") "cluster"
        = [("cluster", FlagValue.str "")] :=
  ⟨(addFlags_registers_iff_nonNil emptyConfigFlags).1 rfl rfl rfl rfl rfl rfl rfl
      rfl rfl rfl rfl rfl rfl rfl rfl rfl rfl,
   ((addFlags_registers_iff_nonNil
      (NewConfigFlags false [] "/home/user")).2.2.2.2.2.2.2.2.2.2.1).trans rfl⟩
